import Mathlib

/-!
# Nutrisist — verification of the health-insights core

Shallow embedding of the meal-planning / health-insights core of the
Nutrisist repository, over exact rational arithmetic:

* `NutritionAdvisor.calculate_nutrition_needs` (app/health_insights/models.py)
* `RecoveryAssistant.analyze_recovery_status` and its status classifier
* `MealPlanner._distribute_calories`, `_select_meal_items`,
  `_optimize_grocery_list`
* `WearableService.generate_aggregated_data` (backend/app/services/wearables_service.py)

Python numbers are modelled as `ℚ`; Python's `round` (banker's rounding,
half-to-even) is `pyRound`, Python's `int()` truncation is `pyInt`.
-/

/-- Python's built-in `round` to an integer: round-half-to-even. -/
def pyRound (q : ℚ) : ℤ :=
  if q - ⌊q⌋ < 1/2 then ⌊q⌋
  else if 1/2 < q - ⌊q⌋ then ⌊q⌋ + 1
  else if 2 ∣ ⌊q⌋ then ⌊q⌋ else ⌊q⌋ + 1

/-- Python's `int()` applied to a float: truncation toward zero. -/
def pyInt (q : ℚ) : ℤ :=
  if 0 ≤ q then ⌊q⌋ else ⌈q⌉

/-- Banker's rounding moves a value by at most 1/2. -/
lemma abs_pyRound_sub_le (q : ℚ) : |(pyRound q : ℚ) - q| ≤ 1/2 := by
  have h0 : ((⌊q⌋ : ℤ) : ℚ) ≤ q := Int.floor_le q
  have h1 : q < (⌊q⌋ : ℤ) + 1 := Int.lt_floor_add_one q
  unfold pyRound
  split_ifs with hlt hgt hev <;>
    (rw [abs_le]; constructor <;> push_cast <;> linarith)

/-! ## NutritionAdvisor (app/health_insights/models.py, lines 321–408) -/

/-- Input record for `calculate_nutrition_needs`; field defaults of the
Python `user_data.get(...)` calls are applied by the caller.  `gender` is
compared lower-cased in the source (`gender.lower() == 'male'`), so it is
modelled already lower-cased. -/
structure UserData where
  weight : ℚ
  height : ℚ
  age : ℚ
  gender : String
  activity_level : String
  goal : String
  calories_burned : ℚ

/-- `self.protein_per_kg.get(goal, 1.8)`. -/
def protein_per_kg (goal : String) : ℚ :=
  if goal = "weight_loss" then 22/10
  else if goal = "muscle_gain" then 24/10
  else if goal = "maintenance" then 18/10
  else if goal = "endurance" then 16/10
  else 18/10

/-- `activity_multipliers.get(activity_level, 1.2)`. -/
def activity_multipliers (level : String) : ℚ :=
  if level = "sedentary" then 12/10
  else if level = "light" then 1375/1000
  else if level = "moderate" then 155/100
  else if level = "high" then 1725/1000
  else if level = "athlete" then 19/10
  else 12/10

/-- Mifflin-St Jeor BMR as computed in `calculate_nutrition_needs`. -/
def bmr (u : UserData) : ℚ :=
  if u.gender = "male" then
    10 * u.weight + (625/100) * u.height - 5 * u.age + 5
  else
    10 * u.weight + (625/100) * u.height - 5 * u.age - 161

/-- TDEE: BMR times activity multiplier, plus measured calories burned. -/
def tdee (u : UserData) : ℚ :=
  bmr u * activity_multipliers u.activity_level + u.calories_burned

/-- Goal adjustment of TDEE (15% deficit / 10% surplus / unchanged). -/
def target_calories (u : UserData) : ℚ :=
  if u.goal = "weight_loss" then tdee u * (85/100)
  else if u.goal = "muscle_gain" then tdee u * (110/100)
  else tdee u

/-- `protein_g = weight * protein_per_kg.get(goal, 1.8)`. -/
def protein_grams (u : UserData) : ℚ :=
  u.weight * protein_per_kg u.goal

/-- `protein_cals = protein_g * 4`. -/
def protein_cals (u : UserData) : ℚ :=
  protein_grams u * 4

/-- `fat_cals = target_calories * 0.25`. -/
def fat_cals (u : UserData) : ℚ :=
  target_calories u * (25/100)

/-- `carb_cals = target_calories - protein_cals - fat_cals`. -/
def carb_cals (u : UserData) : ℚ :=
  target_calories u - protein_cals u - fat_cals u

/-- One macro block of the returned dict (`grams`/`calories`/`percentage`,
each produced by Python `round`). -/
structure MacroInfo where
  grams : ℤ
  calories : ℤ
  percentage : ℤ
deriving DecidableEq

/-- The returned nutrition-needs record (meal-timing text omitted). -/
structure NutritionNeeds where
  target_calories : ℤ
  protein : MacroInfo
  carbs : MacroInfo
  fat : MacroInfo
  hydration : ℤ
deriving DecidableEq

/-- `NutritionAdvisor.calculate_nutrition_needs`. -/
def calculate_nutrition_needs (u : UserData) : NutritionNeeds :=
  { target_calories := pyRound (target_calories u)
    protein :=
      { grams := pyRound (protein_grams u)
        calories := pyRound (protein_cals u)
        percentage := pyRound (protein_cals u / target_calories u * 100) }
    carbs :=
      { grams := pyRound (carb_cals u / 4)
        calories := pyRound (carb_cals u)
        percentage := pyRound (carb_cals u / target_calories u * 100) }
    fat :=
      { grams := pyRound (fat_cals u / 9)
        calories := pyRound (fat_cals u)
        percentage := pyRound (fat_cals u / target_calories u * 100) }
    hydration := pyRound (u.weight * 35) }

/-- `pyRound` is the identity on integers. -/
lemma pyRound_intCast (n : ℤ) : pyRound ((n : ℤ) : ℚ) = n := by
  unfold pyRound
  rw [Int.floor_intCast]
  norm_num

/-! ## RecoveryAssistant (app/health_insights/models.py, lines 253–318) -/

/-- Input of `analyze_recovery_status`: the `user_data` dict.  `Option`
models a possibly missing dict key; the Python code reads the current
scores with `.get(key, 0)` and the averages with a truthiness test. -/
structure RecoveryUserData where
  sleep_score : Option ℚ
  hrv_score : Option ℚ
  avg_sleep_score : Option ℚ
  avg_hrv_score : Option ℚ

/-- The dict returned by `analyze_recovery_status`. -/
structure RecoveryResult where
  status : String
  sleep_ratio : ℚ
  hrv_ratio : ℚ
  recommendations : List String

/-- `score / averages.get(key, score) if averages.get(key) else 1`: the
average is used as the divisor only when present and truthy (non-zero);
otherwise the ratio defaults to 1. -/
def guardedRatio (score : ℚ) (avg : Option ℚ) : ℚ :=
  match avg with
  | some a => if a = 0 then 1 else score / a
  | none => 1

/-- `RecoveryAssistant._calculate_recovery_status` with the constructor's
thresholds `sleep_threshold = 0.7`, `hrv_threshold = 0.8`. -/
def _calculate_recovery_status (sleep_ratio hrv_ratio : ℚ) : String :=
  if sleep_ratio < 7/10 ∧ hrv_ratio < 8/10 then "NEEDS_RECOVERY"
  else if sleep_ratio < 7/10 ∨ hrv_ratio < 8/10 then "MODERATE_RECOVERY"
  else "RECOVERED"

/-- `RecoveryAssistant._generate_recommendations`. -/
def _generate_recommendations (status : String) (sleep_ratio hrv_ratio : ℚ) : List String :=
  if status = "NEEDS_RECOVERY" then
    ["Take a rest day from intense exercise",
     "Focus on gentle movement like walking or yoga",
     "Practice deep breathing or meditation",
     "Prioritize sleep and stress management"]
  else if status = "MODERATE_RECOVERY" then
    (if sleep_ratio < 7/10 then
      ["Consider a shorter, lower-intensity workout",
       "Practice good sleep hygiene tonight",
       "Avoid caffeine after 2 PM"]
     else []) ++
    (if hrv_ratio < 8/10 then
      ["Include extra warm-up and cool-down time",
       "Try light mobility work",
       "Focus on stress management techniques"]
     else [])
  else
    ["You're recovered and ready for normal training",
     "Continue monitoring your recovery metrics",
     "Maintain your current sleep and recovery practices"]

/-- `RecoveryAssistant.analyze_recovery_status`. -/
def analyze_recovery_status (u : RecoveryUserData) : RecoveryResult :=
  let sleep_score := u.sleep_score.getD 0
  let hrv_score := u.hrv_score.getD 0
  let sleep_ratio := guardedRatio sleep_score u.avg_sleep_score
  let hrv_ratio := guardedRatio hrv_score u.avg_hrv_score
  { status := _calculate_recovery_status sleep_ratio hrv_ratio
    sleep_ratio := sleep_ratio
    hrv_ratio := hrv_ratio
    recommendations :=
      _generate_recommendations (_calculate_recovery_status sleep_ratio hrv_ratio)
        sleep_ratio hrv_ratio }

/-- The ordering of recovery tiers: NEEDS_RECOVERY < MODERATE_RECOVERY <
RECOVERED. -/
def statusTier (status : String) : ℕ :=
  if status = "NEEDS_RECOVERY" then 0
  else if status = "MODERATE_RECOVERY" then 1
  else 2

/-! ## MealPlanner._distribute_calories (models.py, lines 728–753) -/

/-- `MealPlanner._distribute_calories`; the returned Python dict is
modelled as an insertion-ordered association list. -/
def _distribute_calories (total_calories : ℚ) (meals_per_day : ℤ) : List (String × ℚ) :=
  if meals_per_day = 6 then
    [("breakfast", total_calories * (2/10)),
     ("morning_snack", total_calories * (1/10)),
     ("lunch", total_calories * (25/100)),
     ("afternoon_snack", total_calories * (1/10)),
     ("dinner", total_calories * (25/100)),
     ("evening_snack", total_calories * (1/10))]
  else if meals_per_day = 5 then
    [("breakfast", total_calories * (25/100)),
     ("morning_snack", total_calories * (1/10)),
     ("lunch", total_calories * (3/10)),
     ("afternoon_snack", total_calories * (1/10)),
     ("dinner", total_calories * (25/100))]
  else
    [("breakfast", total_calories * (3/10)),
     ("lunch", total_calories * (3/10)),
     ("snack", total_calories * (1/10)),
     ("dinner", total_calories * (3/10))]


/-! ## MealPlanner._select_meal_items (models.py, lines 767–825) -/

/-- An ingredient line of a recipe or meal. -/
structure Ingredient where
  name : String
  amount : ℚ
  unit : String
deriving DecidableEq

/-- A recipe template of the `self.recipes` catalog. -/
structure Recipe where
  name : String
  ingredients : List Ingredient
  instructions : List String
deriving DecidableEq

/-- The per-meal macro target handed to `_select_meal_items`
(`meal_macros[...]['grams']`, integer grams from `_calculate_meal_macros`). -/
structure MealMacros where
  protein_g : ℤ
  carbs_g : ℤ
  fat_g : ℤ
deriving DecidableEq

/-- A meal dict as returned by `_select_meal_items`. -/
structure Meal where
  name : String
  calories : ℤ
  macros : MealMacros
  ingredients : List Ingredient
  instructions : List String
deriving DecidableEq

/-- Python `str.title()` restricted to the lower-case words that occur as
meal-type names: capitalize the first letter of each space-separated word. -/
def pyTitle (s : String) : String :=
  " ".intercalate ((s.splitOn " ").map String.capitalize)

/-- `MealPlanner._select_meal_items`.  `available_recipes` is
`self.recipes.get(meal_type, [])`; `dietary_preferences` and
`excluded_foods` are accepted but never read by the source body.
`random.choice` draws an arbitrary element of the non-empty list; it is
modelled by the extra index `choice`, taken modulo the list length. -/
def _select_meal_items (meal_macros : MealMacros)
    (dietary_preferences excluded_foods : List String)
    (meal_type : String) (servings : ℚ)
    (available_recipes : List Recipe) (choice : ℕ) : Meal :=
  if available_recipes.isEmpty then
    { name := "Balanced " ++ pyTitle ((meal_type.replace "_" " "))
      calories := meal_macros.protein_g * 4 + meal_macros.carbs_g * 4 + meal_macros.fat_g * 9
      macros := meal_macros
      ingredients :=
        [⟨"chicken breast", 150 * servings, "g"⟩,
         ⟨"brown rice", 100 * servings, "g"⟩,
         ⟨"broccoli", 100 * servings, "g"⟩,
         ⟨"olive oil", 15 * servings, "ml"⟩]
      instructions :=
        ["Cook chicken breast", "Prepare brown rice", "Steam broccoli", "Combine and serve"] }
  else
    let recipe := available_recipes.getD (choice % available_recipes.length) ⟨"", [], []⟩
    { name := recipe.name
      calories := meal_macros.protein_g * 4 + meal_macros.carbs_g * 4 + meal_macros.fat_g * 9
      macros := meal_macros
      ingredients := recipe.ingredients.map (fun i => ⟨i.name, i.amount * servings, i.unit⟩)
      instructions := recipe.instructions }

/-- The `'lunch'` entry of the `self.recipes` catalog built in
`MealPlanner.__init__`. -/
def grilled_chicken_salad : Recipe :=
  { name := "Grilled Chicken Salad"
    ingredients :=
      [⟨"chicken breast", 150, "g"⟩,
       ⟨"mixed greens", 100, "g"⟩,
       ⟨"cherry tomatoes", 100, "g"⟩,
       ⟨"olive oil", 15, "ml"⟩,
       ⟨"balsamic vinegar", 10, "ml"⟩,
       ⟨"salt", 1, "g"⟩,
       ⟨"pepper", 1, "g"⟩]
    instructions :=
      ["Season and grill chicken breast",
       "Toss greens and tomatoes with olive oil and vinegar",
       "Top with sliced chicken",
       "Season with salt and pepper"] }

/-- `self.recipes.get('lunch', [])` from `MealPlanner.__init__`: the lunch
catalog holds exactly one template. -/
def lunch_recipes : List Recipe := [grilled_chicken_salad]

/-! ## MealPlanner._optimize_grocery_list (models.py, lines 631–664) -/

/-- Accumulated raw entry of the grocery dict (`amount`/`unit`/`recipes`). -/
structure GroceryDetails where
  amount : ℚ
  unit : String
  recipes : List String
deriving DecidableEq

/-- An output line of the optimized grocery list; the Python code formats
`quantity` as the string `f"{amount}{unit}"`, modelled as the pair of the
numeric amount and the unit. -/
structure GroceryEntry where
  item : String
  amount : ℚ
  unit : String
  recipes : List String
deriving DecidableEq

/-- The per-unit bulk rounding applied inside `_optimize_grocery_list`:
grams up to the nearest 100, milliliters up to the nearest 250, `whole`
items up to the nearest integer, anything else unchanged. -/
def roundBulk (amount : ℚ) (unit : String) : ℚ :=
  if unit = "g" then (⌈amount / 100⌉ : ℤ) * 100
  else if unit = "ml" then (⌈amount / 250⌉ : ℤ) * 250
  else if unit = "whole" then (⌈amount⌉ : ℤ)
  else amount

/-- The inner loop of `_optimize_grocery_list` over one category's items. -/
def _optimize_category (items : List (String × GroceryDetails)) : List GroceryEntry :=
  items.map (fun it =>
    { item := it.1
      amount := roundBulk it.2.amount it.2.unit
      unit := it.2.unit
      recipes := it.2.recipes })

/-- The fixed shopping order of `_optimize_grocery_list`. -/
def category_order : List String :=
  ["proteins", "dairy", "vegetables", "fruits", "carbs", "healthy_fats", "condiments"]

/-- `MealPlanner._optimize_grocery_list`: round every item, then emit the
categories of `category_order` that are present, then the remaining
categories in their original order. -/
def _optimize_grocery_list (grocery_list : List (String × List (String × GroceryDetails))) :
    List (String × List GroceryEntry) :=
  let optimized := grocery_list.map (fun p => (p.1, _optimize_category p.2))
  let sorted := category_order.filterMap
    (fun c => (optimized.find? (fun p => p.1 = c)).map (fun p => (c, p.2)))
  sorted ++ optimized.filter (fun p => !(category_order.contains p.1))

/-! ## WearableService.generate_aggregated_data
(backend/app/services/wearables_service.py, lines 174–312) -/

/-- One day of activity data, with the fields the aggregator reads. -/
structure ActivityDay where
  steps : ℚ
  calories_burned : ℚ
  fairly_active : ℚ
  very_active : ℚ
  resting_hr : ℚ
deriving DecidableEq

/-- One day of sleep data, with the fields the aggregator reads. -/
structure SleepDay where
  sleep_duration : ℚ
  deep : ℚ
  efficiency : ℚ
deriving DecidableEq

/-- The user profile used for the Harris-Benedict BMR. -/
structure ProfileData where
  gender : String
  weight : ℚ
  height : ℚ
  age : ℚ

/-- The aggregated document built by `generate_aggregated_data`
(user id, date range and timestamps omitted). -/
structure AggregatedData where
  avg_daily_steps : ℤ
  avg_daily_calories_burned : ℤ
  avg_active_minutes : ℤ
  avg_resting_heart_rate : ℤ
  avg_sleep_duration : ℚ
  avg_deep_sleep : ℚ
  avg_sleep_efficiency : ℤ
  activity_level : String
  sleep_quality : String
  estimated_bmr : ℤ
  recommended_calories : ℤ
  recommended_protein : ℤ
  recommended_carbs : ℤ
  recommended_fat : ℤ

/-- Step-count labelling of `generate_aggregated_data`. -/
def activityLevelLabel (avg_steps : ℚ) : String :=
  if avg_steps ≥ 10000 then "very_active"
  else if avg_steps ≥ 7500 then "moderately_active"
  else if avg_steps ≥ 5000 then "lightly_active"
  else "sedentary"

/-- Sleep-quality labelling of `generate_aggregated_data`. -/
def sleepQualityLabel (dur deep eff : ℚ) : String :=
  if dur ≥ 8 ∧ deep ≥ 3/2 ∧ eff ≥ 90 then "excellent"
  else if dur ≥ 7 ∧ deep ≥ 12/10 ∧ eff ≥ 85 then "good"
  else if dur ≥ 6 ∧ deep ≥ 1 ∧ eff ≥ 80 then "fair"
  else "poor"

/-- Harris-Benedict BMR of the aggregator (`bmr = 0` with no profile). -/
def wearableBmr (p : Option ProfileData) : ℚ :=
  match p with
  | none => 0
  | some prof =>
    if prof.gender = "male" then
      88362/1000 + (13397/1000) * prof.weight + (4799/1000) * prof.height - (5677/1000) * prof.age
    else
      447593/1000 + (9247/1000) * prof.weight + (3098/1000) * prof.height - (4330/1000) * prof.age

/-- `activity_multipliers.get(activity_level, 1.2)` of the aggregator. -/
def wearableActivityMultiplier (level : String) : ℚ :=
  if level = "sedentary" then 12/10
  else if level = "lightly_active" then 1375/1000
  else if level = "moderately_active" then 155/100
  else if level = "very_active" then 1725/1000
  else 12/10

/-- `WearableService.generate_aggregated_data`, on the already-fetched
activity and sleep samples of the date range: `None` when either sample
list is empty ("Skip if no data"), else the aggregated document. -/
def generate_aggregated_data (activity_data : List ActivityDay)
    (sleep_data : List SleepDay) (user_profile : Option ProfileData) :
    Option AggregatedData :=
  if activity_data.isEmpty ∨ sleep_data.isEmpty then none
  else
    let total_days : ℚ := activity_data.length
    let avg_steps := (activity_data.map (·.steps)).sum / total_days
    let avg_calories_burned := (activity_data.map (·.calories_burned)).sum / total_days
    let avg_active_minutes :=
      (activity_data.map (fun d => d.fairly_active + d.very_active)).sum / total_days
    let avg_resting_hr := (activity_data.map (·.resting_hr)).sum / total_days
    let avg_sleep_duration :=
      (sleep_data.map (·.sleep_duration)).sum / (sleep_data.length : ℚ)
    let avg_deep_sleep := (sleep_data.map (·.deep)).sum / (sleep_data.length : ℚ)
    let avg_sleep_efficiency := (sleep_data.map (·.efficiency)).sum / (sleep_data.length : ℚ)
    let activity_level := activityLevelLabel avg_steps
    let sleep_quality := sleepQualityLabel avg_sleep_duration avg_deep_sleep avg_sleep_efficiency
    let bmr := wearableBmr user_profile
    let recommended_calories := pyInt (bmr * wearableActivityMultiplier activity_level)
    some
      { avg_daily_steps := pyInt avg_steps
        avg_daily_calories_burned := pyInt avg_calories_burned
        avg_active_minutes := pyInt avg_active_minutes
        avg_resting_heart_rate := pyInt avg_resting_hr
        avg_sleep_duration := avg_sleep_duration
        avg_deep_sleep := avg_deep_sleep
        avg_sleep_efficiency := pyInt avg_sleep_efficiency
        activity_level := activity_level
        sleep_quality := sleep_quality
        estimated_bmr := pyInt bmr
        recommended_calories := recommended_calories
        recommended_protein := pyInt ((recommended_calories * (3/10)) / 4)
        recommended_carbs := pyInt ((recommended_calories * (4/10)) / 4)
        recommended_fat := pyInt ((recommended_calories * (3/10)) / 9) }

/-! ## Theorems -/

/-- C1: for every valid input to `calculate_nutrition_needs` (positive
weight, height and age), the returned protein, carb and fat calorie
fields sum to within 2 kcal of the returned `target_calories`. -/
theorem nutrition_calorie_identity (u : UserData)
    (hw : 0 < u.weight) (hh : 0 < u.height) (ha : 0 < u.age) :
    |(calculate_nutrition_needs u).protein.calories
      + (calculate_nutrition_needs u).carbs.calories
      + (calculate_nutrition_needs u).fat.calories
      - (calculate_nutrition_needs u).target_calories| ≤ 2 := by
  have hP := abs_pyRound_sub_le (protein_cals u)
  have hC := abs_pyRound_sub_le (carb_cals u)
  have hF := abs_pyRound_sub_le (fat_cals u)
  have hT := abs_pyRound_sub_le (target_calories u)
  have hsum : protein_cals u + carb_cals u + fat_cals u = target_calories u := by
    unfold carb_cals; ring
  have hq : |((pyRound (protein_cals u) : ℚ)) + (pyRound (carb_cals u) : ℚ)
      + (pyRound (fat_cals u) : ℚ) - (pyRound (target_calories u) : ℚ)| ≤ 2 := by
    rw [abs_le] at hP hC hF hT ⊢
    constructor <;> linarith
  show |pyRound (protein_cals u) + pyRound (carb_cals u)
      + pyRound (fat_cals u) - pyRound (target_calories u)| ≤ 2
  exact_mod_cast hq

/-- Witness for C1 at the spec's example profile. -/
theorem nutrition_calorie_identity_witness :
    (0 : ℚ) < 80 ∧ (0 : ℚ) < 180 ∧ (0 : ℚ) < 30 ∧
    |(calculate_nutrition_needs ⟨80, 180, 30, "male", "moderate", "maintenance", 0⟩).protein.calories
      + (calculate_nutrition_needs ⟨80, 180, 30, "male", "moderate", "maintenance", 0⟩).carbs.calories
      + (calculate_nutrition_needs ⟨80, 180, 30, "male", "moderate", "maintenance", 0⟩).fat.calories
      - (calculate_nutrition_needs ⟨80, 180, 30, "male", "moderate", "maintenance", 0⟩).target_calories| ≤ 2 :=
  ⟨by norm_num, by norm_num, by norm_num,
   nutrition_calorie_identity ⟨80, 180, 30, "male", "moderate", "maintenance", 0⟩
     (by norm_num) (by norm_num) (by norm_num)⟩

/-- C5: for the profile male / age 30 / 80 kg / 180 cm / moderate activity /
maintenance goal with no measured calories burned, the Mifflin-St Jeor BMR
is 1780 and the returned target calories are round(1780 × 1.55) = 2759. -/
theorem mifflin_example_profile :
    bmr ⟨80, 180, 30, "male", "moderate", "maintenance", 0⟩ = 1780 ∧
    (calculate_nutrition_needs ⟨80, 180, 30, "male", "moderate", "maintenance", 0⟩).target_calories = 2759 := by
  constructor
  · norm_num [bmr]
  · show pyRound (target_calories ⟨80, 180, 30, "male", "moderate", "maintenance", 0⟩) = 2759
    have h : target_calories ⟨80, 180, 30, "male", "moderate", "maintenance", 0⟩ = ((2759 : ℤ) : ℚ) := by
      simp only [target_calories, tdee, bmr, activity_multipliers, String.reduceEq]
      norm_num
    rw [h, pyRound_intCast]

/-- C3: for 6, 5 and 4 meals per day, `_distribute_calories` realises
exactly the spec's share tables, the shares of each configuration sum to
exactly 1, and the per-meal calorie values sum to the total. -/
theorem distribute_calories_share_tables (total_calories : ℚ) :
    _distribute_calories total_calories 6 =
      [("breakfast", (20/100) * total_calories),
       ("morning_snack", (10/100) * total_calories),
       ("lunch", (25/100) * total_calories),
       ("afternoon_snack", (10/100) * total_calories),
       ("dinner", (25/100) * total_calories),
       ("evening_snack", (10/100) * total_calories)] ∧
    _distribute_calories total_calories 5 =
      [("breakfast", (25/100) * total_calories),
       ("morning_snack", (10/100) * total_calories),
       ("lunch", (30/100) * total_calories),
       ("afternoon_snack", (10/100) * total_calories),
       ("dinner", (25/100) * total_calories)] ∧
    _distribute_calories total_calories 4 =
      [("breakfast", (30/100) * total_calories),
       ("lunch", (30/100) * total_calories),
       ("snack", (10/100) * total_calories),
       ("dinner", (30/100) * total_calories)] ∧
    ((20 : ℚ)/100 + 10/100 + 25/100 + 10/100 + 25/100 + 10/100 = 1) ∧
    ((25 : ℚ)/100 + 10/100 + 30/100 + 10/100 + 25/100 = 1) ∧
    ((30 : ℚ)/100 + 30/100 + 10/100 + 30/100 = 1) ∧
    ((_distribute_calories total_calories 6).map Prod.snd).sum = total_calories ∧
    ((_distribute_calories total_calories 5).map Prod.snd).sum = total_calories ∧
    ((_distribute_calories total_calories 4).map Prod.snd).sum = total_calories := by
  refine ⟨?_, ?_, ?_, by norm_num, by norm_num, by norm_num, ?_, ?_, ?_⟩ <;>
    simp [_distribute_calories] <;> norm_num [mul_comm] <;> simp <;> ring

/-- C9: for every `meals_per_day` other than 5 and 6 — including the
value 3 — `_distribute_calories` falls through to the four-slot table, so
a 3-meal request receives four meal slots. -/
theorem distribute_calories_default_four (total_calories : ℚ) (m : ℤ)
    (h5 : m ≠ 5) (h6 : m ≠ 6) :
    _distribute_calories total_calories m =
      [("breakfast", total_calories * (3/10)),
       ("lunch", total_calories * (3/10)),
       ("snack", total_calories * (1/10)),
       ("dinner", total_calories * (3/10))] ∧
    (_distribute_calories total_calories m).length = 4 := by
  unfold _distribute_calories
  rw [if_neg h6, if_neg h5]
  exact ⟨rfl, rfl⟩

/-- Witness for C9 at `meals_per_day = 3`. -/
theorem distribute_calories_default_four_witness :
    ((3 : ℤ) ≠ 5) ∧ ((3 : ℤ) ≠ 6) ∧
    (_distribute_calories 2000 3 =
      [("breakfast", 2000 * (3/10)),
       ("lunch", 2000 * (3/10)),
       ("snack", 2000 * (1/10)),
       ("dinner", 2000 * (3/10))] ∧
     (_distribute_calories 2000 3).length = 4) :=
  ⟨by decide, by decide, distribute_calories_default_four 2000 3 (by decide) (by decide)⟩

/-- C6: if a historical average is absent or zero, the corresponding
ratio computed by `analyze_recovery_status` is 1 (at baseline) — no
division by zero occurs. -/
theorem recovery_ratio_baseline_default (u : RecoveryUserData) :
    ((u.avg_sleep_score = none ∨ u.avg_sleep_score = some 0) →
      (analyze_recovery_status u).sleep_ratio = 1) ∧
    ((u.avg_hrv_score = none ∨ u.avg_hrv_score = some 0) →
      (analyze_recovery_status u).hrv_ratio = 1) := by
  constructor <;> rintro (h | h) <;>
    simp [analyze_recovery_status, guardedRatio, h]

/-- Witness for C6: current sleep score 0 with no history yields
sleep ratio 1. -/
theorem recovery_ratio_baseline_default_witness :
    (analyze_recovery_status ⟨some 0, some 0, none, none⟩).sleep_ratio = 1 ∧
    (analyze_recovery_status ⟨some 0, some 0, none, none⟩).hrv_ratio = 1 :=
  ⟨(recovery_ratio_baseline_default ⟨some 0, some 0, none, none⟩).1 (Or.inl rfl),
   (recovery_ratio_baseline_default ⟨some 0, some 0, none, none⟩).2 (Or.inl rfl)⟩

/-- C7: the recovery classification is monotone — lowering either ratio
never improves the tier (NEEDS_RECOVERY < MODERATE_RECOVERY < RECOVERED). -/
theorem recovery_status_monotone (s h s' h' : ℚ) (hs : s' ≤ s) (hh : h' ≤ h) :
    statusTier (_calculate_recovery_status s' h') ≤
      statusTier (_calculate_recovery_status s h) := by
  have h1 : s < 7/10 → s' < 7/10 := fun hx => lt_of_le_of_lt hs hx
  have h2 : h < 8/10 → h' < 8/10 := fun hx => lt_of_le_of_lt hh hx
  unfold _calculate_recovery_status
  split_ifs <;> simp [statusTier] <;> tauto

/-- Witness for C7 at the pair (1, 1) against (1/2, 1/2). -/
theorem recovery_status_monotone_witness :
    ((1 : ℚ)/2 ≤ 1) ∧ ((1 : ℚ)/2 ≤ 1) ∧
    statusTier (_calculate_recovery_status (1/2) (1/2)) ≤
      statusTier (_calculate_recovery_status 1 1) :=
  ⟨by norm_num, by norm_num,
   recovery_status_monotone 1 1 (1/2) (1/2) (by norm_num) (by norm_num)⟩

/-- C2 counterexample: with an empty sample set the aggregator returns
`none`; it does not return a zero-populated record as the claim states. -/
theorem aggregated_empty_counterexample :
    generate_aggregated_data [] [] none = none ∧
    ∀ d : AggregatedData, generate_aggregated_data [] [] none ≠ some d := by
  constructor
  · simp [generate_aggregated_data]
  · intro d h
    simp [generate_aggregated_data] at h

/-- C2 amended: if either sample list of the date range is empty, the
aggregator skips the computation and returns `none` — no error is raised
and no record is produced. -/
theorem aggregated_empty_returns_none (a : List ActivityDay) (s : List SleepDay)
    (p : Option ProfileData) (h : a = [] ∨ s = []) :
    generate_aggregated_data a s p = none := by
  unfold generate_aggregated_data
  rcases h with rfl | rfl <;> simp

/-- Witness for the amended C2: activity data empty, one day of sleep data. -/
theorem aggregated_empty_returns_none_witness :
    (([] : List ActivityDay) = [] ∨ ([⟨8, 2, 90⟩] : List SleepDay) = []) ∧
    generate_aggregated_data [] [⟨8, 2, 90⟩] none = none :=
  ⟨Or.inl rfl, aggregated_empty_returns_none [] [⟨8, 2, 90⟩] none (Or.inl rfl)⟩

/-- C4 counterexample: `_select_meal_items` applies no tolerance-band
filter.  The lunch catalog is non-empty (one template), and the selector
returns that same template — same name, same ingredients — for two macro
targets (protein 10 g and protein 1000 g) whose ±10% bands share no
value, so for at least one of the two calls the returned template's macro
profile lies outside the ±10% band of the target. -/
theorem meal_selector_band_counterexample :
    lunch_recipes ≠ [] ∧
    (_select_meal_items ⟨10, 50, 20⟩ [] [] "lunch" 1 lunch_recipes 0).name =
      "Grilled Chicken Salad" ∧
    (_select_meal_items ⟨1000, 50, 20⟩ [] [] "lunch" 1 lunch_recipes 0).name =
      "Grilled Chicken Salad" ∧
    (_select_meal_items ⟨10, 50, 20⟩ [] [] "lunch" 1 lunch_recipes 0).ingredients =
      (_select_meal_items ⟨1000, 50, 20⟩ [] [] "lunch" 1 lunch_recipes 0).ingredients ∧
    ∀ x : ℚ, ¬(|x - 10| ≤ 10 * (10/100) ∧ |x - 1000| ≤ 1000 * (10/100)) := by
  refine ⟨by simp [lunch_recipes], ?_, ?_, ?_, ?_⟩
  · simp [_select_meal_items, lunch_recipes, grilled_chicken_salad]
  · simp [_select_meal_items, lunch_recipes, grilled_chicken_salad]
  · simp [_select_meal_items, lunch_recipes, grilled_chicken_salad]
  · rintro x ⟨h1, h2⟩
    rw [abs_le] at h1 h2
    have := h1.2
    have := h2.1
    linarith

/-- C4 amended: whenever the catalog for the meal slot is non-empty, the
selector returns the template picked by the random draw — scaled by
`servings` — with no macro-tolerance filtering of the catalog. -/
theorem meal_selector_returns_catalog_template (mm : MealMacros)
    (dp ef : List String) (mt : String) (servings : ℚ)
    (cat : List Recipe) (choice : ℕ) (hne : cat ≠ []) :
    ∃ r ∈ cat,
      (_select_meal_items mm dp ef mt servings cat choice).name = r.name ∧
      (_select_meal_items mm dp ef mt servings cat choice).ingredients =
        r.ingredients.map (fun i => ⟨i.name, i.amount * servings, i.unit⟩) ∧
      (_select_meal_items mm dp ef mt servings cat choice).instructions =
        r.instructions := by
  have hemp : cat.isEmpty = false := by
    simpa [List.isEmpty_iff] using hne
  have hlen : 0 < cat.length := List.length_pos.2 hne
  have hidx : choice % cat.length < cat.length := Nat.mod_lt _ hlen
  refine ⟨cat.getD (choice % cat.length) ⟨"", [], []⟩, ?_, ?_, ?_, ?_⟩
  · rw [List.getD_eq_getElem _ _ hidx]
    exact List.getElem_mem hidx
  · simp [_select_meal_items, hemp]
  · simp [_select_meal_items, hemp]
  · simp [_select_meal_items, hemp]

/-- Witness for the amended C4 at the lunch catalog. -/
theorem meal_selector_returns_catalog_template_witness :
    lunch_recipes ≠ [] ∧
    ∃ r ∈ lunch_recipes,
      (_select_meal_items ⟨10, 50, 20⟩ [] [] "lunch" 1 lunch_recipes 0).name = r.name ∧
      (_select_meal_items ⟨10, 50, 20⟩ [] [] "lunch" 1 lunch_recipes 0).ingredients =
        r.ingredients.map (fun i => ⟨i.name, i.amount * 1, i.unit⟩) ∧
      (_select_meal_items ⟨10, 50, 20⟩ [] [] "lunch" 1 lunch_recipes 0).instructions =
        r.instructions :=
  ⟨by simp [lunch_recipes],
   meal_selector_returns_catalog_template ⟨10, 50, 20⟩ [] [] "lunch" 1 lunch_recipes 0
     (by simp [lunch_recipes])⟩

/-- C10: every meal returned by `_select_meal_items` — template path and
synthesized-fallback path alike — has its calories equal to
protein×4 + carbs×4 + fat×9 of the per-meal macro target, independent of
the chosen recipe. -/
theorem meal_calories_from_macro_target (mm : MealMacros)
    (dp ef : List String) (mt : String) (servings : ℚ)
    (cat : List Recipe) (choice : ℕ) :
    (_select_meal_items mm dp ef mt servings cat choice).calories =
      mm.protein_g * 4 + mm.carbs_g * 4 + mm.fat_g * 9 := by
  unfold _select_meal_items
  split_ifs <;> rfl

/-- Bulk rounding never decreases an amount (for any sign, any unit). -/
lemma le_roundBulk (amount : ℚ) (unit : String) : amount ≤ roundBulk amount unit := by
  unfold roundBulk
  split_ifs
  · have hc : (amount / 100 : ℚ) ≤ (⌈amount / 100⌉ : ℤ) := Int.le_ceil _
    have h100 : amount / 100 * 100 = amount := by ring
    nlinarith
  · have hc : (amount / 250 : ℚ) ≤ (⌈amount / 250⌉ : ℤ) := Int.le_ceil _
    have h250 : amount / 250 * 250 = amount := by ring
    nlinarith
  · exact Int.le_ceil amount
  · exact le_refl amount

/-- Every category of the output of `_optimize_grocery_list` is the
rounded image of a category of the input: the reordering at the end only
permutes the categories. -/
lemma optimize_list_mem (gl : List (String × List (String × GroceryDetails)))
    (c : String) (out : List GroceryEntry)
    (h : (c, out) ∈ _optimize_grocery_list gl) :
    ∃ items, (c, items) ∈ gl ∧ out = _optimize_category items := by
  unfold _optimize_grocery_list at h
  rcases List.mem_append.1 h with h | h
  · rcases List.mem_filterMap.1 h with ⟨c0, _hc0, hsome⟩
    rcases Option.map_eq_some'.1 hsome with ⟨p, hfind, hp⟩
    have hpmem := List.mem_of_find?_eq_some hfind
    have hpc : p.1 = c0 := by simpa using List.find?_some hfind
    rcases List.mem_map.1 hpmem with ⟨q, hq, hq2⟩
    cases hq2
    obtain ⟨hc1, hc2⟩ := Prod.mk.injEq .. ▸ hp
    refine ⟨q.2, ?_, hc2.symm⟩
    have hq1 : q.1 = c := by rw [hpc, hc1]
    rw [← hq1]
    exact hq
  · rcases List.mem_filter.1 h with ⟨hmem, _⟩
    rcases List.mem_map.1 hmem with ⟨q, hq, hq2⟩
    obtain ⟨hc1, hc2⟩ := Prod.mk.injEq .. ▸ hq2
    refine ⟨q.2, ?_, hc2.symm⟩
    rw [← hc1]
    exact hq

/-- C8: every entry of the optimized grocery list is the bulk-rounded
image of an accumulated raw item, the rounding never decreases a
non-negative amount, and on grams 500 stays 500 while 530 becomes 600. -/
theorem grocery_rounding_never_decreases
    (gl : List (String × List (String × GroceryDetails)))
    (c : String) (out : List GroceryEntry)
    (hmem : (c, out) ∈ _optimize_grocery_list gl)
    (e : GroceryEntry) (he : e ∈ out) :
    (∃ items nd, (c, items) ∈ gl ∧ nd ∈ items ∧
       e.item = nd.1 ∧ e.unit = nd.2.unit ∧
       e.amount = roundBulk nd.2.amount nd.2.unit ∧
       (0 ≤ nd.2.amount → nd.2.amount ≤ e.amount)) ∧
    roundBulk 500 "g" = 500 ∧ roundBulk 530 "g" = 600 := by
  refine ⟨?_, ?_, ?_⟩
  · rcases optimize_list_mem gl c out hmem with ⟨items, hitems, rfl⟩
    rcases List.mem_map.1 he with ⟨nd, hnd, rfl⟩
    exact ⟨items, nd, hitems, hnd, rfl, rfl, rfl, fun _ => le_roundBulk _ _⟩
  · unfold roundBulk
    rw [if_pos rfl]
    rw [show (500 : ℚ)/100 = ((5 : ℤ) : ℚ) by norm_num, Int.ceil_intCast]
    norm_num
  · unfold roundBulk
    rw [if_pos rfl]
    have hceil : ⌈(530 : ℚ)/100⌉ = 6 := by
      rw [Int.ceil_eq_iff]
      constructor <;> norm_num
    rw [hceil]
    norm_num

/-- Witness for C8: one category with one 530 g item, rounded up to 600 g. -/
theorem grocery_rounding_never_decreases_witness :
    (("proteins", [(⟨"chicken breast", 600, "g", ["Grilled Chicken Salad"]⟩ : GroceryEntry)]) ∈
        _optimize_grocery_list
          [("proteins", [("chicken breast", ⟨530, "g", ["Grilled Chicken Salad"]⟩)])]) ∧
    ((⟨"chicken breast", 600, "g", ["Grilled Chicken Salad"]⟩ : GroceryEntry) ∈
        [(⟨"chicken breast", 600, "g", ["Grilled Chicken Salad"]⟩ : GroceryEntry)]) ∧
    ((∃ items nd,
        ("proteins", items) ∈
          [("proteins", [("chicken breast", (⟨530, "g", ["Grilled Chicken Salad"]⟩ : GroceryDetails))])] ∧
        nd ∈ items ∧
        (⟨"chicken breast", 600, "g", ["Grilled Chicken Salad"]⟩ : GroceryEntry).item = nd.1 ∧
        (⟨"chicken breast", 600, "g", ["Grilled Chicken Salad"]⟩ : GroceryEntry).unit = nd.2.unit ∧
        (⟨"chicken breast", 600, "g", ["Grilled Chicken Salad"]⟩ : GroceryEntry).amount =
          roundBulk nd.2.amount nd.2.unit ∧
        (0 ≤ nd.2.amount →
          nd.2.amount ≤ (⟨"chicken breast", 600, "g", ["Grilled Chicken Salad"]⟩ : GroceryEntry).amount)) ∧
      roundBulk 500 "g" = 500 ∧ roundBulk 530 "g" = 600) := by
  have h600 : roundBulk 530 "g" = 600 := by
    unfold roundBulk
    rw [if_pos rfl]
    have hceil : ⌈(530 : ℚ)/100⌉ = 6 := by
      rw [Int.ceil_eq_iff]
      constructor <;> norm_num
    rw [hceil]
    norm_num
  have hmem :
      ("proteins", [(⟨"chicken breast", 600, "g", ["Grilled Chicken Salad"]⟩ : GroceryEntry)]) ∈
        _optimize_grocery_list
          [("proteins", [("chicken breast", ⟨530, "g", ["Grilled Chicken Salad"]⟩)])] := by
    simp [_optimize_grocery_list, _optimize_category, category_order, h600]
  have he :
      (⟨"chicken breast", 600, "g", ["Grilled Chicken Salad"]⟩ : GroceryEntry) ∈
        [(⟨"chicken breast", 600, "g", ["Grilled Chicken Salad"]⟩ : GroceryEntry)] :=
    List.mem_singleton.2 rfl
  exact ⟨hmem, he,
    grocery_rounding_never_decreases
      [("proteins", [("chicken breast", ⟨530, "g", ["Grilled Chicken Salad"]⟩)])]
      "proteins" [(⟨"chicken breast", 600, "g", ["Grilled Chicken Salad"]⟩ : GroceryEntry)]
      hmem (⟨"chicken breast", 600, "g", ["Grilled Chicken Salad"]⟩ : GroceryEntry) he⟩
